import Mathlib

/-!
Verification of the SDG 11.3.1 indicator specification of MVPUrbanSprawl.

The repository's checked-in source (`app.py`) is a Streamlit dashboard; the
IndicatorEngine described by the specification (operations `compute_rates`,
`ratio`, `project`) is not present in the checked-in source, so it is modelled
here from the specification's formulas.  The helper functions `github_raw` and
`fetch_image_bytes` are embedded directly from `app.py`.
-/

namespace UrbanSprawl

/-! ## Data model (spec §3) -/

/-- Modelled from the spec: a single observation
`{ year, built_up_area, population }`.  The engine's code is absent from the
checked-in source; fields follow the spec's TimeSeriesPoint. -/
structure TimeSeriesPoint where
  year : ℤ
  built_up_area : ℝ
  population : ℝ

/-- Modelled from the spec: the pair of annualized rates produced by
`compute_rates`. -/
structure RatePair where
  lcr : ℝ
  pgr : ℝ

/-- Modelled from the spec: error taxonomy of the IndicatorEngine (spec §7).
`InvalidInput` is fatal, `DegenerateInput` is recoverable. -/
inductive IndicatorError where
  | InvalidInput
  | DegenerateInput
deriving DecidableEq

/-- Modelled from the spec: growth classification outcomes, including the
`Unknown` sentinel for an undefined ratio. -/
inductive GrowthClassification where
  | Compact
  | Balanced
  | Sprawl
  | Unknown
deriving DecidableEq

/-- Modelled from the spec: result of the `ratio` operation.  `lcrpgr = none`
is the spec's `None`/`NaN` sentinel for an undefined ratio. -/
structure RatioResult where
  lcrpgr : Option ℝ
  classification : GrowthClassification

/-- Modelled from the spec: output of a forward projection (the projected
scalar fields of the spec's ProjectionResult). -/
structure ProjectionResult where
  target_year : ℤ
  projected_built_up_area : ℝ
  projected_population : ℝ

/-! ## IndicatorEngine operations (spec §4.1) -/

/-- Modelled from the spec: `compute_rates(base, current)`.
Fails with `InvalidInput` when `base.built_up_area ≤ 0`, `base.population ≤ 0`
or `current.year ≤ base.year`; fails with `DegenerateInput` when
`current.built_up_area ≤ 0` or `current.population ≤ 0`; otherwise returns the
logarithmic annualized rates
`lcr = ln(current.built_up_area / base.built_up_area) / (current.year - base.year)`
and `pgr = ln(current.population / base.population) / (current.year - base.year)`. -/
noncomputable def compute_rates (base current : TimeSeriesPoint) :
    Except IndicatorError RatePair :=
  if base.built_up_area ≤ 0 ∨ base.population ≤ 0 ∨ current.year ≤ base.year then
    .error .InvalidInput
  else if current.built_up_area ≤ 0 ∨ current.population ≤ 0 then
    .error .DegenerateInput
  else
    .ok { lcr := Real.log (current.built_up_area / base.built_up_area) /
                  ((current.year : ℝ) - (base.year : ℝ))
        , pgr := Real.log (current.population / base.population) /
                  ((current.year : ℝ) - (base.year : ℝ)) }

/-- Modelled from the spec: the canonical classification policy
`lcrpgr ≤ 1.0 → Compact`, `1.0 < lcrpgr ≤ 1.2 → Balanced`,
`lcrpgr > 1.2 → Sprawl`. -/
noncomputable def classify (r : ℝ) : GrowthClassification :=
  if r ≤ 1 then .Compact
  else if r ≤ 1.2 then .Balanced
  else .Sprawl

/-- Modelled from the spec: `ratio(lcr, pgr)`.  When `pgr = 0` the ratio is
undefined and a tagged sentinel is returned (not an error); otherwise
`lcrpgr = lcr / pgr` together with its classification. -/
noncomputable def ratio (lcr pgr : ℝ) : RatioResult :=
  if pgr = 0 then { lcrpgr := none, classification := .Unknown }
  else { lcrpgr := some (lcr / pgr), classification := classify (lcr / pgr) }

/-- Modelled from the spec: `project(current, target_year, rate, rate)` using
the compound formula
`projected_value = current_value * (1 + rate) ^ (target_year - current.year)`,
applied independently to built-up area and population. -/
noncomputable def project (current : TimeSeriesPoint) (target_year : ℤ)
    (annual_land_growth_rate annual_pop_growth_rate : ℝ) : ProjectionResult :=
  { target_year := target_year
  , projected_built_up_area :=
      current.built_up_area *
        (1 + annual_land_growth_rate) ^ (target_year - current.year).toNat
  , projected_population :=
      current.population *
        (1 + annual_pop_growth_rate) ^ (target_year - current.year).toNat }

/-! ## Statelessness wrappers (spec §5)

The spec states the engine is purely functional with no retained or global
state.  Each operation is lifted to run against an arbitrary ambient process
state, making "reads no state, writes no state" expressible. -/

/-- Modelled from the spec: invoking `compute_rates` against an ambient process
state of any type returns that state untouched alongside the pure result. -/
noncomputable def compute_rates_invoke (σ : Type) (s : σ)
    (base current : TimeSeriesPoint) : σ × Except IndicatorError RatePair :=
  (s, compute_rates base current)

/-- Modelled from the spec: invoking `ratio` against an ambient process state
of any type returns that state untouched alongside the pure result. -/
noncomputable def ratio_invoke (σ : Type) (s : σ) (lcr pgr : ℝ) :
    σ × RatioResult :=
  (s, ratio lcr pgr)

/-- Modelled from the spec: invoking `project` against an ambient process state
of any type returns that state untouched alongside the pure result. -/
noncomputable def project_invoke (σ : Type) (s : σ) (current : TimeSeriesPoint)
    (target_year : ℤ) (r_land r_pop : ℝ) : σ × ProjectionResult :=
  (s, project current target_year r_land r_pop)

/-! ## Helper functions embedded from `app.py` -/

/-- The character list of a string literal, used to embed Python strings. -/
def chars (s : String) : List Char := s.data

/-- Python's substring test `needle in hay` on character lists. -/
def pyIn (needle : List Char) : List Char → Bool
  | [] => needle.isEmpty
  | c :: t => needle.isPrefixOf (c :: t) || pyIn needle t

/-- Python's `s.replace(old, new)`: replace non-overlapping occurrences of
`old` in `s` by `new`, scanning left to right (with Python's empty-pattern
behaviour of inserting `new` at every position). -/
def pyReplace (s old new : List Char) : List Char :=
  match s with
  | [] => if old = [] then new else []
  | c :: cs =>
    if old = [] then
      new ++ c :: pyReplace cs old new
    else if old.isPrefixOf (c :: cs) then
      new ++ pyReplace ((c :: cs).drop old.length) old new
    else
      c :: pyReplace cs old new
termination_by s.length
decreasing_by
  · simp
  · have hlen : 0 < old.length := List.length_pos.mpr (by assumption)
    simp only [List.length_drop, List.length_cons]
    omega
  · simp

/-- Embedded from `app.py` (`github_raw`): rewrite a GitHub URL to a raw
content URL, leaving it unchanged when it already carries `?raw=1`. -/
def github_raw (url : List Char) : List Char :=
  if pyIn (chars "?raw=1") url then url
  else if pyIn (chars "raw.githubusercontent.com") url then
    url ++ chars "?raw=1"
  else if pyIn (chars "github.com") url && pyIn (chars "/blob/") url then
    pyReplace (pyReplace url (chars "github.com") (chars "raw.githubusercontent.com"))
        (chars "/blob/") (chars "/")
      ++ chars "?raw=1"
  else url

/-- Outcome of the `requests.get` call inside `fetch_image_bytes`: either an
HTTP response with a status code and a body, or an exception raised during the
request. -/
inductive ReqOutcome where
  | response (status_code : ℤ) (content : List ℕ)
  | failure
deriving DecidableEq

/-- Embedded from `app.py` (`fetch_image_bytes`): rewrite the URL with
`github_raw`, perform the request (modelled by the oracle `req` mapping the
rewritten URL and timeout to an outcome), return the body on status 200 and
`none` on any other status or on an exception. -/
def fetch_image_bytes (req : List Char → ℤ → ReqOutcome) (url : List Char)
    (timeout : ℤ := 6) : Option (List ℕ) :=
  match req (github_raw url) timeout with
  | .response code content => if code = 200 then some content else none
  | .failure => none

/-! ## Shared helper lemmas -/

/-- On valid, strictly positive inputs `compute_rates` takes no error branch
and returns the logarithmic annualized rates. -/
lemma compute_rates_of_pos (base current : TimeSeriesPoint)
    (hb : 0 < base.built_up_area) (hp : 0 < base.population)
    (hcb : 0 < current.built_up_area) (hcp : 0 < current.population)
    (hy : base.year < current.year) :
    compute_rates base current = .ok
      { lcr := Real.log (current.built_up_area / base.built_up_area) /
          ((current.year : ℝ) - (base.year : ℝ))
      , pgr := Real.log (current.population / base.population) /
          ((current.year : ℝ) - (base.year : ℝ)) } := by
  unfold compute_rates
  rw [if_neg (by push_neg; exact ⟨hb, hp, hy⟩), if_neg (by push_neg; exact ⟨hcb, hcp⟩)]

/-- Comparing powers of positive reals transfers to a strict inequality
between multiples of their logarithms. -/
lemma mul_log_lt_mul_log {a b : ℝ} {p q : ℕ} (ha : 0 < a) (h : a ^ p < b ^ q) :
    (p : ℝ) * Real.log a < (q : ℝ) * Real.log b := by
  have hlog := Real.log_lt_log (pow_pos ha p) h
  rwa [Real.log_pow, Real.log_pow] at hlog

/-- Comparing powers of positive reals transfers to an inequality between
multiples of their logarithms. -/
lemma mul_log_le_mul_log {a b : ℝ} {p q : ℕ} (ha : 0 < a) (h : a ^ p ≤ b ^ q) :
    (p : ℝ) * Real.log a ≤ (q : ℝ) * Real.log b := by
  have hbq : (0 : ℝ) < b ^ q := lt_of_lt_of_le (pow_pos ha p) h
  have hlog := (Real.log_le_log_iff (pow_pos ha p) hbq).mpr h
  rwa [Real.log_pow, Real.log_pow] at hlog

/-! ## Claim theorems -/

/-- C1: on every pair of observations with `current.year > base.year` and all
four base/current values strictly positive, `compute_rates` returns the
logarithmic continuous-compounding rates
`lcr = ln(current.built_up_area / base.built_up_area) / (current.year - base.year)`
and `pgr = ln(current.population / base.population) / (current.year - base.year)`. -/
theorem compute_rates_log_form (base current : TimeSeriesPoint)
    (hb : 0 < base.built_up_area) (hp : 0 < base.population)
    (hcb : 0 < current.built_up_area) (hcp : 0 < current.population)
    (hy : base.year < current.year) :
    compute_rates base current = .ok
      { lcr := Real.log (current.built_up_area / base.built_up_area) /
          ((current.year : ℝ) - (base.year : ℝ))
      , pgr := Real.log (current.population / base.population) /
          ((current.year : ℝ) - (base.year : ℝ)) } :=
  compute_rates_of_pos base current hb hp hcb hcp hy

/-- Witness for C1 at the spec's concrete scenario inputs. -/
theorem compute_rates_log_form_witness :
    compute_rates ⟨2015, 5500000, 12500⟩ ⟨2020, 8500000, 16000⟩ = .ok
      { lcr := Real.log ((8500000 : ℝ) / 5500000) / 5
      , pgr := Real.log ((16000 : ℝ) / 12500) / 5 } := by
  have h := compute_rates_log_form ⟨2015, 5500000, 12500⟩ ⟨2020, 8500000, 16000⟩
    (by norm_num) (by norm_num) (by norm_num) (by norm_num) (by decide)
  norm_num at h ⊢
  exact h

/-- C2: for every `lcr`, applying `ratio` with `pgr = 0` yields the tagged
undefined sentinel `lcrpgr = none`, `classification = Unknown`; it is not an
error and the ratio field is not the numeric value `0`. -/
theorem ratio_undefined_when_pgr_zero (lcr : ℝ) :
    ratio lcr 0 = { lcrpgr := none, classification := .Unknown } := by
  simp [ratio]

/-- C3: `compute_rates` fails with `InvalidInput` whenever
`base.built_up_area ≤ 0`, `base.population ≤ 0` or `current.year ≤ base.year`,
and, when the base is valid, fails with the distinct recoverable
`DegenerateInput` whenever `current.built_up_area ≤ 0` or
`current.population ≤ 0`; in particular it never silently returns `lcr = 0`
when `current.built_up_area = 0`. -/
theorem compute_rates_error_taxonomy (base current : TimeSeriesPoint) :
    (base.built_up_area ≤ 0 ∨ base.population ≤ 0 ∨ current.year ≤ base.year →
      compute_rates base current = .error .InvalidInput) ∧
    (0 < base.built_up_area → 0 < base.population → base.year < current.year →
      current.built_up_area ≤ 0 ∨ current.population ≤ 0 →
      compute_rates base current = .error .DegenerateInput) := by
  constructor
  · intro h
    unfold compute_rates
    rw [if_pos h]
  · intro h1 h2 h3 h4
    unfold compute_rates
    rw [if_neg (by push_neg; exact ⟨h1, h2, h3⟩), if_pos h4]

/-- Witness for C3: a zero base area is `InvalidInput`, a zero current area
(with a valid base) is `DegenerateInput`. -/
theorem compute_rates_error_taxonomy_witness :
    compute_rates ⟨2015, 0, 12500⟩ ⟨2020, 8500000, 16000⟩ = .error .InvalidInput ∧
    compute_rates ⟨2015, 5500000, 12500⟩ ⟨2020, 0, 16000⟩ = .error .DegenerateInput :=
  ⟨(compute_rates_error_taxonomy ⟨2015, 0, 12500⟩ ⟨2020, 8500000, 16000⟩).1
      (Or.inl (by norm_num)),
   (compute_rates_error_taxonomy ⟨2015, 5500000, 12500⟩ ⟨2020, 0, 16000⟩).2
      (by norm_num) (by norm_num) (by decide) (Or.inl (by norm_num))⟩

/-- C4: projecting to `target_year = current.year` returns the current
observation unchanged exactly, independent of both rate arguments. -/
theorem project_identity_at_current_year (current : TimeSeriesPoint)
    (r_land r_pop : ℝ) :
    project current current.year r_land r_pop =
      { target_year := current.year
      , projected_built_up_area := current.built_up_area
      , projected_population := current.population } := by
  simp [project]

/-- C5: projecting with both annual growth rates equal to `0` leaves the
built-up area and the population unchanged, for every `target_year ≥
current.year`, the compound formula applying independently to both fields. -/
theorem project_zero_rates_invariant (current : TimeSeriesPoint)
    (target_year : ℤ) (_h : current.year ≤ target_year) :
    (project current target_year 0 0).projected_built_up_area =
        current.built_up_area ∧
    (project current target_year 0 0).projected_population =
        current.population := by
  simp [project]

/-- Witness for C5 at the spec's concrete current observation. -/
theorem project_zero_rates_invariant_witness :
    (project ⟨2020, 8500000, 16000⟩ 2030 0 0).projected_built_up_area =
        (8500000 : ℝ) ∧
    (project ⟨2020, 8500000, 16000⟩ 2030 0 0).projected_population =
        (16000 : ℝ) :=
  project_zero_rates_invariant ⟨2020, 8500000, 16000⟩ 2030 (by decide)

/-- C8: every engine operation is a deterministic pure function of its
explicit arguments: run against an ambient process state of any type, it
returns that state unchanged, and its output does not depend on the state. -/
theorem engine_operations_stateless_deterministic (σ : Type) (s t : σ)
    (base current : TimeSeriesPoint) (lcr pgr : ℝ) (target_year : ℤ)
    (r_land r_pop : ℝ) :
    compute_rates_invoke σ s base current = (s, compute_rates base current) ∧
    (compute_rates_invoke σ s base current).2 =
        (compute_rates_invoke σ t base current).2 ∧
    ratio_invoke σ s lcr pgr = (s, ratio lcr pgr) ∧
    (ratio_invoke σ s lcr pgr).2 = (ratio_invoke σ t lcr pgr).2 ∧
    project_invoke σ s current target_year r_land r_pop =
        (s, project current target_year r_land r_pop) ∧
    (project_invoke σ s current target_year r_land r_pop).2 =
        (project_invoke σ t current target_year r_land r_pop).2 :=
  ⟨rfl, rfl, rfl, rfl, rfl, rfl⟩

/-- A pattern is always found inside a list that ends with it. -/
lemma pyIn_append_self (n s : List Char) : pyIn n (s ++ n) = true := by
  induction s with
  | nil =>
    cases n with
    | nil => rfl
    | cons c t => simp [pyIn, List.isPrefixOf_iff_prefix]
  | cons c cs ih => simp [pyIn, ih]

/-- C6: for a fixed positive annual land growth rate and a positive current
built-up area, the projected built-up area is strictly increasing in the
target year. -/
theorem project_area_strict_mono (current : TimeSeriesPoint) (r r_pop : ℝ)
    (t1 t2 : ℤ) (harea : 0 < current.built_up_area) (hr : 0 < r)
    (h1 : current.year ≤ t1) (h12 : t1 < t2) :
    (project current t1 r r_pop).projected_built_up_area <
      (project current t2 r r_pop).projected_built_up_area := by
  unfold project
  dsimp only
  have hn : (t1 - current.year).toNat < (t2 - current.year).toNat := by omega
  have hbase : (1 : ℝ) < 1 + r := by linarith
  exact mul_lt_mul_of_pos_left (pow_lt_pow_right₀ hbase hn) harea

/-- Witness for C6 at the spec's projection scenario rates and years. -/
theorem project_area_strict_mono_witness :
    (project ⟨2020, 8500000, 16000⟩ 2025 (35 / 1000) (25 / 1000)).projected_built_up_area <
      (project ⟨2020, 8500000, 16000⟩ 2030 (35 / 1000) (25 / 1000)).projected_built_up_area :=
  project_area_strict_mono ⟨2020, 8500000, 16000⟩ (35 / 1000) (25 / 1000) 2025 2030
    (by norm_num) (by norm_num) (by decide) (by decide)

/-- C9: `github_raw` is idempotent on every input URL, and any output it
actually rewrote ends with the appended `?raw=1` marker. -/
theorem github_raw_idempotent (url : List Char) :
    github_raw (github_raw url) = github_raw url ∧
    (github_raw url ≠ url → ∃ s, github_raw url = s ++ chars "?raw=1") := by
  by_cases h1 : pyIn (chars "?raw=1") url
  · have e : github_raw url = url := by simp [github_raw, h1]
    exact ⟨by rw [e, e], fun hne => absurd e hne⟩
  · by_cases h2 : pyIn (chars "raw.githubusercontent.com") url
    · have e : github_raw url = url ++ chars "?raw=1" := by simp [github_raw, h1, h2]
      refine ⟨?_, fun _ => ⟨url, e⟩⟩
      rw [e]
      simp [github_raw, pyIn_append_self]
    · by_cases h3 : pyIn (chars "github.com") url && pyIn (chars "/blob/") url
      · have e : github_raw url =
            pyReplace (pyReplace url (chars "github.com")
                (chars "raw.githubusercontent.com")) (chars "/blob/") (chars "/")
              ++ chars "?raw=1" := by
          simp [github_raw, h1, h2, h3]
        refine ⟨?_, fun _ => ⟨_, e⟩⟩
        rw [e]
        simp [github_raw, pyIn_append_self]
      · have e : github_raw url = url := by simp [github_raw, h1, h2, h3]
        exact ⟨by rw [e, e], fun hne => absurd e hne⟩

/-- Witness for C9: a rewritten raw-content URL gains the `?raw=1` marker and
a second application leaves it unchanged. -/
theorem github_raw_idempotent_witness :
    github_raw (github_raw (chars "https://raw.githubusercontent.com/a/b.png")) =
        github_raw (chars "https://raw.githubusercontent.com/a/b.png") ∧
    ∃ s, github_raw (chars "https://raw.githubusercontent.com/a/b.png") =
        s ++ chars "?raw=1" :=
  ⟨(github_raw_idempotent (chars "https://raw.githubusercontent.com/a/b.png")).1,
   (github_raw_idempotent (chars "https://raw.githubusercontent.com/a/b.png")).2
     (by decide)⟩

/-- C10: `fetch_image_bytes` never propagates a request failure: it returns
the body exactly when the request on the rewritten URL yields status 200, and
`none` on any other status as well as on an exception. -/
theorem fetch_image_bytes_total_spec (req : List Char → ℤ → ReqOutcome)
    (url : List Char) (timeout : ℤ) :
    (∀ b, fetch_image_bytes req url timeout = some b ↔
        req (github_raw url) timeout = .response 200 b) ∧
    (∀ code content, req (github_raw url) timeout = .response code content →
        code ≠ 200 → fetch_image_bytes req url timeout = none) ∧
    (req (github_raw url) timeout = .failure →
        fetch_image_bytes req url timeout = none) := by
  refine ⟨?_, ?_, ?_⟩
  · intro b
    constructor
    · intro h
      unfold fetch_image_bytes at h
      cases hr : req (github_raw url) timeout with
      | response code content =>
        rw [hr] at h
        by_cases hc : code = 200
        · subst hc
          simp only [if_true, reduceIte, Option.some.injEq] at h
          rw [h]
        · simp [hc] at h
      | failure => rw [hr] at h; exact absurd h (by simp)
    · intro h
      unfold fetch_image_bytes
      rw [h]
      simp
  · intro code content h hne
    unfold fetch_image_bytes
    rw [h]
    simp [hne]
  · intro h
    unfold fetch_image_bytes
    rw [h]

/-- Witness for C10: a 200 response produces the body, a 404 response and a
raised exception both produce `none`. -/
theorem fetch_image_bytes_total_spec_witness :
    fetch_image_bytes (fun _ _ => ReqOutcome.response 200 [7]) (chars "u") 6 =
        some [7] ∧
    fetch_image_bytes (fun _ _ => ReqOutcome.response 404 [7]) (chars "u") 6 =
        none ∧
    fetch_image_bytes (fun _ _ => ReqOutcome.failure) (chars "u") 6 = none :=
  ⟨((fetch_image_bytes_total_spec (fun _ _ => ReqOutcome.response 200 [7])
        (chars "u") 6).1 [7]).mpr rfl,
   (fetch_image_bytes_total_spec (fun _ _ => ReqOutcome.response 404 [7])
        (chars "u") 6).2.1 404 [7] rfl (by decide),
   (fetch_image_bytes_total_spec (fun _ _ => ReqOutcome.failure)
        (chars "u") 6).2.2 rfl⟩

/-- The land consumption rate of the spec's concrete scenario,
`ln(8500000 / 5500000) / (2020 - 2015)`. -/
noncomputable def scenario_lcr : ℝ := Real.log ((8500000 : ℝ) / 5500000) / 5

/-- The population growth rate of the spec's concrete scenario,
`ln(16000 / 12500) / (2020 - 2015)`. -/
noncomputable def scenario_pgr : ℝ := Real.log ((16000 : ℝ) / 12500) / 5

/-- C7: on `base = ⟨2015, 5500000, 12500⟩` and `current = ⟨2020, 8500000,
16000⟩` the engine computes `lcr = ln(8.5/5.5)/5 ≈ 0.0876` (within
`(0.08, 0.09)`), `pgr = ln(16000/12500)/5 ≈ 0.0496` (within
`(0.045, 0.055)`), `lcrpgr ≈ 1.766` (within `(1.7, 1.8)`), and classifies the
result as `Sprawl` because the ratio exceeds the canonical `1.2` threshold. -/
theorem indicator_concrete_scenario :
    compute_rates ⟨2015, 5500000, 12500⟩ ⟨2020, 8500000, 16000⟩ =
      .ok { lcr := scenario_lcr, pgr := scenario_pgr } ∧
    ratio scenario_lcr scenario_pgr =
      { lcrpgr := some (scenario_lcr / scenario_pgr)
      , classification := .Sprawl } ∧
    1.2 < scenario_lcr / scenario_pgr ∧
    1.7 < scenario_lcr / scenario_pgr ∧ scenario_lcr / scenario_pgr < 1.8 ∧
    0.08 < scenario_lcr ∧ scenario_lcr < 0.09 ∧
    0.045 < scenario_pgr ∧ scenario_pgr < 0.055 := by
  have eL : (8500000 : ℝ) / 5500000 = 17 / 11 := by norm_num
  have eP : (16000 : ℝ) / 12500 = 32 / 25 := by norm_num
  have hL17 : scenario_lcr = Real.log ((17 : ℝ) / 11) / 5 := by
    unfold scenario_lcr
    rw [eL]
  have hP32 : scenario_pgr = Real.log ((32 : ℝ) / 25) / 5 := by
    unfold scenario_pgr
    rw [eP]
  have hLpos : 0 < Real.log ((17 : ℝ) / 11) := Real.log_pos (by norm_num)
  have hPpos : 0 < Real.log ((32 : ℝ) / 25) := Real.log_pos (by norm_num)
  have m1 := mul_log_lt_mul_log (p := 6) (q := 5)
    (by norm_num : (0 : ℝ) < 32 / 25)
    (by norm_num : ((32 : ℝ) / 25) ^ 6 < ((17 : ℝ) / 11) ^ 5)
  have m2 := mul_log_lt_mul_log (p := 17) (q := 10)
    (by norm_num : (0 : ℝ) < 32 / 25)
    (by norm_num : ((32 : ℝ) / 25) ^ 17 < ((17 : ℝ) / 11) ^ 10)
  have m3 := mul_log_lt_mul_log (p := 10) (q := 18)
    (by norm_num : (0 : ℝ) < 17 / 11)
    (by norm_num : ((17 : ℝ) / 11) ^ 10 < ((32 : ℝ) / 25) ^ 18)
  have m4 := mul_log_le_mul_log (p := 3) (q := 5)
    (by norm_num : (0 : ℝ) < 2)
    (by norm_num : (2 : ℝ) ^ 3 ≤ ((17 : ℝ) / 11) ^ 5)
  have m5 := mul_log_le_mul_log (p := 14) (q := 9)
    (by norm_num : (0 : ℝ) < 17 / 11)
    (by norm_num : ((17 : ℝ) / 11) ^ 14 ≤ (2 : ℝ) ^ 9)
  have m6 := mul_log_le_mul_log (p := 1) (q := 3)
    (by norm_num : (0 : ℝ) < 2)
    (by norm_num : (2 : ℝ) ^ 1 ≤ ((32 : ℝ) / 25) ^ 3)
  have m7 := mul_log_le_mul_log (p := 8) (q := 3)
    (by norm_num : (0 : ℝ) < 32 / 25)
    (by norm_num : ((32 : ℝ) / 25) ^ 8 ≤ (2 : ℝ) ^ 3)
  push_cast at m1 m2 m3 m4 m5 m6 m7
  have l2lo := Real.log_two_gt_d9
  have l2hi := Real.log_two_lt_d9
  have hLlo : (0.4 : ℝ) < Real.log ((17 : ℝ) / 11) := by linarith
  have hLhi : Real.log ((17 : ℝ) / 11) < 0.45 := by linarith
  have hPlo : (0.225 : ℝ) < Real.log ((32 : ℝ) / 25) := by linarith
  have hPhi : Real.log ((32 : ℝ) / 25) < 0.275 := by linarith
  have hpgrpos : 0 < scenario_pgr := by
    rw [hP32]
    exact div_pos hPpos (by norm_num)
  have hratio : scenario_lcr / scenario_pgr =
      Real.log ((17 : ℝ) / 11) / Real.log ((32 : ℝ) / 25) := by
    rw [hL17, hP32, div_div_div_comm]
    norm_num
  have hgt12 : (1.2 : ℝ) < scenario_lcr / scenario_pgr := by
    rw [hratio, lt_div_iff₀ hPpos]
    linarith
  have hgt17 : (1.7 : ℝ) < scenario_lcr / scenario_pgr := by
    rw [hratio, lt_div_iff₀ hPpos]
    linarith
  have hlt18 : scenario_lcr / scenario_pgr < 1.8 := by
    rw [hratio, div_lt_iff₀ hPpos]
    linarith
  refine ⟨?_, ?_, hgt12, hgt17, hlt18, ?_, ?_, ?_, ?_⟩
  · have h := compute_rates_of_pos ⟨2015, 5500000, 12500⟩ ⟨2020, 8500000, 16000⟩
      (by norm_num) (by norm_num) (by norm_num) (by norm_num) (by decide)
    simp only [scenario_lcr, scenario_pgr]
    norm_num at h ⊢
    exact h
  · unfold ratio
    rw [if_neg hpgrpos.ne']
    have hcls : classify (scenario_lcr / scenario_pgr) = .Sprawl := by
      unfold classify
      rw [if_neg (by push_neg; linarith), if_neg (by push_neg; linarith)]
    rw [hcls]
  · rw [hL17]
    linarith
  · rw [hL17]
    linarith
  · rw [hP32]
    linarith
  · rw [hP32]
    linarith

end UrbanSprawl
